import Mathlib

/-!
Verification of the style-analysis core of the deep-literary-style-transfer
repository (src/main.py), as a shallow embedding in Lean 4.

The linguistic pipeline (spaCy) is an external collaborator: a run of the
pipeline is modelled as a `Doc`, holding the raw text together with the
sentence segmentation, each sentence being a list of `Token`s carrying the
surface text, the part-of-speech tag and the `is_alpha` / `is_punct` /
`is_space` flags, exactly the data `analyze` reads off a spaCy doc.
Floating-point numbers of the source are modelled as exact rationals.
-/

namespace StyleTransfer

/-- A token of the external linguistic pipeline: surface text, POS tag and
the three boolean flags read by the analyzer (spaCy `token.text`,
`token.pos_`, `token.is_alpha`, `token.is_punct`, `token.is_space`). -/
structure Token where
  text : String
  pos : String
  is_alpha : Bool
  is_punct : Bool
  is_space : Bool
deriving DecidableEq, Repr

/-- Output of one run of the linguistic pipeline on an input text:
the raw text (spaCy `doc.text` is the input text) and the sentence
segmentation; the full token stream is the concatenation of the sentences. -/
structure Doc where
  text : String
  sents : List (List Token)
deriving DecidableEq, Repr

/-- The full token stream of a doc (iterating `for token in doc`). -/
def Doc.tokens (d : Doc) : List Token := d.sents.flatten

/-- Python `str.strip()`: remove leading and trailing whitespace. -/
def pyStrip (s : String) : String :=
  ⟨((s.data.dropWhile Char.isWhitespace).reverse.dropWhile Char.isWhitespace).reverse⟩

/-- Vowels of the syllable heuristic: `vowels = "aeiouy"` (main.py line 13). -/
def isVowel (c : Char) : Bool := c ∈ ['a', 'e', 'i', 'o', 'u', 'y']

/-- Counts vowel-group starts: given whether the preceding character was a
vowel, a character is counted when it is a vowel and the previous one is not
(main.py lines 14-18; the first character has no predecessor, so the initial
flag is `false` and it is counted exactly when it is a vowel). -/
def vowelRuns : Bool → List Char → Nat
  | _, [] => 0
  | prevV, c :: rest => (if isVowel c && !prevV then 1 else 0) + vowelRuns (isVowel c) rest

/-- Syllable heuristic `syllable_count` (main.py lines 10-23): lower-case the
word, count vowel-group starts, subtract 1 when the word ends in `e`, and turn
a zero count into 1.  The source raises an IndexError (`word[0]`) on the empty
string; the embedding returns `none` there. -/
def syllable_count (word : String) : Option Int :=
  let w := word.data.map Char.toLower
  if w.isEmpty then none
  else
    let count : Int := vowelRuns false w
    let count2 := if w.getLast? = some 'e' then count - 1 else count
    some (if count2 = 0 then count2 + 1 else count2)

/-- The alphabetic word tokens: `words = [token.text for token in doc if token.is_alpha]`
(main.py line 45). -/
def Doc.words (d : Doc) : List String :=
  (d.tokens.filter (fun t => t.is_alpha)).map (fun t => t.text)

/-- Per-sentence alphabetic-token counts (main.py line 56). -/
def Doc.sentence_lengths (d : Doc) : List Nat :=
  d.sents.map (fun s => (s.filter (fun t => t.is_alpha)).length)

/-- POS tags of the tokens that are neither punctuation nor whitespace, in
stream order (the generator on main.py line 64). -/
def Doc.posKeys (d : Doc) : List String :=
  (d.tokens.filter (fun t => !t.is_punct && !t.is_space)).map (fun t => t.pos)

/-- Surface texts of the punctuation tokens, in stream order (the generator on
main.py line 68). -/
def Doc.punctKeys (d : Doc) : List String :=
  (d.tokens.filter (fun t => t.is_punct)).map (fun t => t.text)

/-- One step of `collections.Counter`: bump the count of `k` when present,
otherwise append `(k, 1)` at the end, preserving first-encounter order. -/
def addKey : List (String × Nat) → String → List (String × Nat)
  | [], k => [(k, 1)]
  | (k', c) :: rest, k =>
    if k' = k then (k', c + 1) :: rest else (k', c) :: addKey rest k

/-- `collections.Counter` over a list of keys, as an association list in
first-encounter order (Python dicts preserve insertion order). -/
def tally (ks : List String) : List (String × Nat) := ks.foldl addKey []

/-- Sum of the counts of an association list (`sum(counter.values())`). -/
def sumVals (l : List (String × Nat)) : Nat := (l.map (fun p => p.2)).sum

/-- Arithmetic mean of a list of counts: `np.mean(sentence_lengths) if
sentence_lengths else 0` (main.py line 57). -/
def listMean (l : List Nat) : ℚ :=
  if l.isEmpty then 0 else (l.sum : ℚ) / l.length

/-- Population variance of a list of counts.  The source computes
`np.std(sentence_lengths)` (main.py line 58), the square root of exactly this
quantity, and squares it again on line 80; in exact arithmetic the two steps
cancel, so the profile field is this value. -/
def popVar (l : List Nat) : ℚ :=
  if l.isEmpty then 0
  else ((l.map (fun x : Nat => ((x : ℚ) - listMean l) ^ 2)).sum) / l.length

/-- The Flesch Reading Ease computation of main.py lines 74-76: the standard
formula when both totals are positive, `0` otherwise. -/
def fleschOf (total_words total_sentences : Nat) (total_syllables : Int) : ℚ :=
  if 0 < total_sentences ∧ 0 < total_words then
    206835 / 1000 - (1015 / 1000) * ((total_words : ℚ) / (total_sentences : ℚ))
      - (846 / 10) * ((total_syllables : ℚ) / (total_words : ℚ))
  else 0

/-- Guarded type-token ratio of main.py line 61:
`len(set(words)) / total_words if total_words > 0 else 0`. -/
def ttrOf (words : List String) : ℚ :=
  if 0 < words.length then ((words.dedup.length : ℚ) / (words.length : ℚ)) else 0

/-- The stylistic profile returned by `StyleAnalyzer.analyze` (main.py lines
78-85); the two distributions are association lists in Python-dict insertion
order. -/
structure StylisticProfile where
  avg_sentence_length : ℚ
  sentence_length_variance : ℚ
  type_token_ratio : ℚ
  pos_distribution : List (String × ℚ)
  punctuation_distribution : List (String × ℚ)
  flesch_reading_ease : ℚ
deriving DecidableEq, Repr

/-- Total syllables: `sum(syllable_count(word) for word in words)` (main.py
line 53).  The `getD 0` default is unreachable for pipeline output, where
alphabetic tokens have non-empty text (the source would raise on an empty
word). -/
def Doc.totalSyllables (d : Doc) : Int :=
  (d.words.map (fun w => (syllable_count w).getD 0)).sum

/-- The POS distribution of main.py lines 64-65: tally the POS tags of the
non-punct, non-space tokens and divide each tally by `total_words`, the count
of the alphabetic tokens; empty when `total_words` is 0. -/
def Doc.posDist (d : Doc) : List (String × ℚ) :=
  if 0 < d.words.length then
    (tally d.posKeys).map (fun p => (p.1, (p.2 : ℚ) / (d.words.length : ℚ)))
  else []

/-- The punctuation distribution of main.py lines 68-70: tally the surface
texts of the punctuation tokens and divide by the total punctuation count;
empty via the explicit guard when that count is 0. -/
def Doc.punctDist (d : Doc) : List (String × ℚ) :=
  if 0 < sumVals (tally d.punctKeys) then
    (tally d.punctKeys).map (fun p => (p.1, (p.2 : ℚ) / (sumVals (tally d.punctKeys) : ℚ)))
  else []

/-- `StyleAnalyzer.analyze` (main.py lines 37-85).  Raising `ValueError` is
modelled by `Except.error`; `not doc` is true in Python exactly when the doc
has zero tokens. -/
def analyze (doc : Doc) : Except String StylisticProfile :=
  if doc.tokens.isEmpty || (pyStrip doc.text).isEmpty then
    .error "Input text is empty or contains only whitespace."
  else if doc.sents.isEmpty || doc.words.isEmpty then
    .error "Could not extract sentences or words from the text."
  else
    .ok
      { avg_sentence_length := listMean doc.sentence_lengths
        sentence_length_variance := popVar doc.sentence_lengths
        type_token_ratio := ttrOf doc.words
        pos_distribution := doc.posDist
        punctuation_distribution := doc.punctDist
        flesch_reading_ease :=
          fleschOf doc.words.length doc.sents.length doc.totalSyllables }

/-- Stable insertion of one entry into a list sorted by descending value: the
new entry goes before the first entry whose value does not exceed it.  This is
the insertion step of a stable descending sort, the behaviour of Python
`sorted(items, key=lambda item: item[1], reverse=True)` (Timsort is stable and
`reverse=True` does not reorder equal elements). -/
def insertDesc (x : String × ℚ) : List (String × ℚ) → List (String × ℚ)
  | [] => [x]
  | y :: ys => if y.2 ≤ x.2 then x :: y :: ys else y :: insertDesc x ys

/-- Stable sort by descending value, modelling
`sorted(d.items(), key=lambda item: item[1], reverse=True)` on main.py
lines 94 and 99. -/
def sortDescBySnd : List (String × ℚ) → List (String × ℚ)
  | [] => []
  | x :: xs => insertDesc x (sortDescBySnd xs)

/-- Round to the nearest integer, ties to even: the rounding Python applies
when formatting an exact value with `format`. -/
def roundHalfEven (q : ℚ) : Int :=
  let f := Int.floor q
  let frac := q - f
  if frac < 1 / 2 then f
  else if 1 / 2 < frac then f + 1
  else if f % 2 = 0 then f else f + 1

/-- Pads a digit string with leading zeros up to the wanted width. -/
def padZeros (n : Nat) (s : String) : String :=
  if s.length < n then String.mk (List.replicate (n - s.length) '0') ++ s else s

/-- Fixed-point rendering with the given number of decimals, modelling the
Python format specs `.0f`, `.1f`, `.2f` over exact rationals. -/
def fmtFixed (decimals : Nat) (q : ℚ) : String :=
  let scaled := roundHalfEven (q * ((10 : ℚ) ^ decimals))
  let sign := if scaled < 0 then "-" else ""
  let a := scaled.natAbs
  if decimals = 0 then sign ++ toString a
  else sign ++ toString (a / 10 ^ decimals) ++ "." ++ padZeros decimals (toString (a % 10 ^ decimals))

/-- The Python format spec `.1%`: value times 100, one decimal, a percent
sign. -/
def fmtPercent1 (q : ℚ) : String := fmtFixed 1 (q * 100) ++ "%"

/-- The top-5 POS selection of main.py line 94. -/
def top_pos (a : StylisticProfile) : List (String × ℚ) :=
  (sortDescBySnd a.pos_distribution).take 5

/-- The top-3 punctuation selection of main.py line 99. -/
def top_puncts (a : StylisticProfile) : List (String × ℚ) :=
  (sortDescBySnd a.punctuation_distribution).take 3

/-- The lines appended by the loop on main.py lines 95-96. -/
def grammarLines (a : StylisticProfile) : String :=
  String.join ((top_pos a).map (fun p => "  - " ++ p.1 ++ ": ~" ++ fmtPercent1 p.2 ++ "\n"))

/-- The lines appended by the loop on main.py lines 100-101. -/
def punctLines (a : StylisticProfile) : String :=
  String.join ((top_puncts a).map (fun p =>
    "  - The \x27" ++ p.1 ++ "\x27 character comprises ~" ++ fmtPercent1 p.2
      ++ " of all punctuation.\n"))

/-- `StyleAnalyzer.format_analysis_for_prompt` (main.py lines 87-104). -/
def format_analysis_for_prompt (a : StylisticProfile) (author_name : String) : String :=
  "## Stylistic Analysis of " ++ author_name ++ "\n\n"
    ++ "- **Sentence Structure**: Emulate sentences with an average length of "
    ++ fmtFixed 1 a.avg_sentence_length
    ++ " words. The sentence length should be relatively consistent, with a variance of "
    ++ fmtFixed 1 a.sentence_length_variance ++ ".\n"
    ++ "- **Vocabulary**: Use a vocabulary of moderate richness (Type-Token Ratio of around "
    ++ fmtFixed 2 a.type_token_ratio ++ "). Avoid overly obscure or complex words.\n"
    ++ "- **Grammar (Part-of-Speech)**: The writing heavily features the following parts of speech. Replicate this distribution:\n"
    ++ grammarLines a
    ++ "- **Punctuation**: Punctuation usage is a key part of the style. Prioritize the following marks:\n"
    ++ punctLines a
    ++ "- **Clarity**: The overall style is clear and direct, with a Flesch Reading Ease score around "
    ++ fmtFixed 0 a.flesch_reading_ease ++ ". Aim for this level of readability.\n"

/-- Syllable count as the spec words it: count vowel-group starts, subtract 1
when the (lower-cased) word ends in `e`, and clamp the result to a minimum
of 1. -/
def spec_syllables (word : String) : Int :=
  let l := word.data.map Char.toLower
  max 1 ((vowelRuns false l : Int) - (if l.getLast? = some 'e' then 1 else 0))

/-- Arithmetic mean of a list of rationals (0 on the empty list). -/
def meanQ (l : List ℚ) : ℚ := if l.isEmpty then 0 else l.sum / l.length

/-- Population variance as the spec words it: the mean of the squared
deviations from the mean. -/
def spec_popVariance (l : List Nat) : ℚ :=
  meanQ (l.map (fun x : Nat => ((x : ℚ) - meanQ (l.map (fun x : Nat => (x : ℚ)))) ^ 2))

/-- Sample variance with Bessel's correction (divide by N-1), named by the
spec only to be ruled out. -/
def besselVariance (l : List Nat) : ℚ :=
  if l.length ≤ 1 then 0
  else ((l.map (fun x : Nat => ((x : ℚ) - meanQ (l.map (fun x : Nat => (x : ℚ)))) ^ 2)).sum)
    / ((l.length : ℚ) - 1)

/-- Sum of the values of a rational-valued association list. -/
def valSum (l : List (String × ℚ)) : ℚ := (l.map (fun p => p.2)).sum

/-- Whether a run of the analyzer succeeded. -/
def resultOk : Except String StylisticProfile → Bool
  | .ok _ => true
  | .error _ => false

/-- An alphabetic word token as the pipeline tags it. -/
def alphaTok (s pos : String) : Token := ⟨s, pos, true, false, false⟩

/-- A punctuation token as the pipeline tags it. -/
def punctTok (s : String) : Token := ⟨s, "PUNCT", false, true, false⟩

/-- A numeral token: not alphabetic, not punctuation, not whitespace. -/
def numTok (s : String) : Token := ⟨s, "NUM", false, false, false⟩

/-- Pipeline output for the end-to-end example `"Dogs run. Cats run fast!"`. -/
def dogsDoc : Doc :=
  ⟨"Dogs run. Cats run fast!",
   [[alphaTok "Dogs" "NOUN", alphaTok "run" "VERB", punctTok "."],
    [alphaTok "Cats" "NOUN", alphaTok "run" "VERB", alphaTok "fast" "ADV", punctTok "!"]]⟩

/-- Pipeline output for `"cat 12 34"`: one alphabetic token and two numeral
tokens, which are neither punctuation nor whitespace but also not counted in
`total_words`. -/
def mixedDoc : Doc :=
  ⟨"cat 12 34", [[alphaTok "cat" "NOUN", numTok "12", numTok "34"]]⟩

/-- Pipeline output for the empty input. -/
def emptyDoc : Doc := ⟨"", []⟩

/-- Pipeline output for the whitespace-only input `"   "`. -/
def spacesDoc : Doc := ⟨"   ", [[⟨"   ", "SPACE", false, false, true⟩]]⟩

/-- Pipeline output for the punctuation-only input `"!!! ... ???"`. -/
def punctOnlyDoc : Doc :=
  ⟨"!!! ... ???", [[punctTok "!!!", punctTok "...", punctTok "???"]]⟩

/-- A well-formed two-sentence document with sentence lengths 2 and 3. -/
def birdsDoc : Doc :=
  ⟨"Birds sing. Fish swim now.",
   [[alphaTok "Birds" "NOUN", alphaTok "sing" "VERB", punctTok "."],
    [alphaTok "Fish" "NOUN", alphaTok "swim" "VERB", alphaTok "now" "ADV", punctTok "."]]⟩

/-- A document with two alphabetic tokens and no punctuation at all. -/
def sunDoc : Doc := ⟨"Sun sets", [[alphaTok "Sun" "PROPN", alphaTok "sets" "VERB"]]⟩

/-- A one-sentence document used to instantiate the readability claim. -/
def goDoc : Doc := ⟨"Go now!", [[alphaTok "Go" "VERB", alphaTok "now" "ADV", punctTok "!"]]⟩

/-- A one-sentence document containing punctuation. -/
def hiDoc : Doc :=
  ⟨"Hi there!", [[alphaTok "Hi" "INTJ", alphaTok "there" "ADV", punctTok "!"]]⟩

/-- A one-sentence document on which every guard of `analyze` passes. -/
def rainDoc : Doc :=
  ⟨"Rain falls.", [[alphaTok "Rain" "NOUN", alphaTok "falls" "VERB", punctTok "."]]⟩

/-- A one-sentence document used to instantiate the safety claim. -/
def timeDoc : Doc :=
  ⟨"Time flies.", [[alphaTok "Time" "NOUN", alphaTok "flies" "VERB", punctTok "."]]⟩

/-- A one-sentence document whose tokens are exactly the alphabetic ones plus
punctuation. -/
def starsDoc : Doc :=
  ⟨"Stars shine.", [[alphaTok "Stars" "NOUN", alphaTok "shine" "VERB", punctTok "."]]⟩

lemma sumVals_nil : sumVals [] = 0 := rfl

lemma sumVals_cons (p : String × Nat) (l : List (String × Nat)) :
    sumVals (p :: l) = p.2 + sumVals l := by
  simp [sumVals]

lemma valSum_nil : valSum [] = 0 := rfl

lemma valSum_cons (p : String × ℚ) (l : List (String × ℚ)) :
    valSum (p :: l) = p.2 + valSum l := by
  simp [valSum]

lemma one_le_vowelRuns_false (l : List Char) (h : ∃ c ∈ l, isVowel c = true) :
    1 ≤ vowelRuns false l := by
  induction l with
  | nil => simp at h
  | cons c rest ih =>
    by_cases hc : isVowel c = true
    · simp [vowelRuns, hc]
    · rw [Bool.not_eq_true] at hc
      have hrw : vowelRuns false (c :: rest) = vowelRuns false rest := by
        simp [vowelRuns, hc]
      rw [hrw]
      apply ih
      obtain ⟨d, hd, hdv⟩ := h
      rcases List.mem_cons.mp hd with h1 | h2
      · subst h1; rw [hdv] at hc; cases hc
      · exact ⟨d, h2, hdv⟩

lemma sumVals_addKey (l : List (String × Nat)) (k : String) :
    sumVals (addKey l k) = sumVals l + 1 := by
  induction l with
  | nil => rfl
  | cons p rest ih =>
    obtain ⟨k', c⟩ := p
    rw [addKey]
    by_cases h : k' = k
    · simp [h, sumVals_cons]; omega
    · simp [h, sumVals_cons, ih]; omega

lemma sumVals_foldl (ks : List String) (acc : List (String × Nat)) :
    sumVals (ks.foldl addKey acc) = sumVals acc + ks.length := by
  induction ks generalizing acc with
  | nil => simp
  | cons k ks ih =>
    rw [List.foldl_cons, ih, sumVals_addKey, List.length_cons]
    omega

lemma sumVals_tally (ks : List String) : sumVals (tally ks) = ks.length := by
  rw [tally, sumVals_foldl, sumVals_nil, Nat.zero_add]

lemma snd_le_sumVals {l : List (String × Nat)} {p : String × Nat} (hp : p ∈ l) :
    p.2 ≤ sumVals l := by
  induction l with
  | nil => cases hp
  | cons q rest ih =>
    rcases List.mem_cons.mp hp with h1 | h2
    · subst h1; rw [sumVals_cons]; omega
    · rw [sumVals_cons]; have := ih h2; omega

lemma addKey_ne_nil (l : List (String × Nat)) (k : String) : addKey l k ≠ [] := by
  cases l with
  | nil => simp [addKey]
  | cons p rest =>
    obtain ⟨k', c⟩ := p
    rw [addKey]
    split <;> simp

lemma foldl_addKey_ne_nil (ks : List String) (acc : List (String × Nat))
    (h : acc ≠ []) : ks.foldl addKey acc ≠ [] := by
  induction ks generalizing acc with
  | nil => simpa
  | cons k ks ih => exact ih (addKey acc k) (addKey_ne_nil acc k)

lemma tally_ne_nil {ks : List String} (h : ks ≠ []) : tally ks ≠ [] := by
  cases ks with
  | nil => cases h rfl
  | cons k ks =>
    rw [tally, List.foldl_cons]
    exact foldl_addKey_ne_nil ks (addKey [] k) (addKey_ne_nil [] k)

lemma valSum_map_div (l : List (String × Nat)) (d : ℚ) :
    valSum (l.map (fun p => (p.1, (p.2 : ℚ) / d))) = (sumVals l : ℚ) / d := by
  induction l with
  | nil => simp [valSum, sumVals]
  | cons p rest ih =>
    rw [List.map_cons, valSum_cons, ih, sumVals_cons]
    push_cast
    rw [div_add_div_same]

lemma insertDesc_perm (x : String × ℚ) (l : List (String × ℚ)) :
    List.Perm (insertDesc x l) (x :: l) := by
  induction l with
  | nil => exact List.Perm.refl _
  | cons y ys ih =>
    rw [insertDesc]
    by_cases h : y.2 ≤ x.2
    · rw [if_pos h]
    · rw [if_neg h]
      exact List.Perm.trans (List.Perm.cons y ih) (List.Perm.swap x y ys)

lemma sortDescBySnd_perm (l : List (String × ℚ)) :
    List.Perm (sortDescBySnd l) l := by
  induction l with
  | nil => exact List.Perm.refl _
  | cons x xs ih =>
    rw [sortDescBySnd]
    exact List.Perm.trans (insertDesc_perm x (sortDescBySnd xs)) (List.Perm.cons x ih)

lemma pairwise_insertDesc (x : String × ℚ) (l : List (String × ℚ))
    (h : l.Pairwise (fun a b => b.2 ≤ a.2)) :
    (insertDesc x l).Pairwise (fun a b => b.2 ≤ a.2) := by
  induction l with
  | nil => simp [insertDesc]
  | cons y ys ih =>
    rw [insertDesc]
    rcases List.pairwise_cons.mp h with ⟨hy, hys⟩
    by_cases hxy : y.2 ≤ x.2
    · rw [if_pos hxy]
      refine List.pairwise_cons.mpr ⟨?_, h⟩
      intro z hz
      rcases List.mem_cons.mp hz with h1 | h2
      · subst h1; exact hxy
      · exact le_trans (hy z h2) hxy
    · rw [if_neg hxy]
      refine List.pairwise_cons.mpr ⟨?_, ih hys⟩
      intro z hz
      have hz' := (insertDesc_perm x ys).mem_iff.mp hz
      rcases List.mem_cons.mp hz' with h1 | h2
      · subst h1; exact le_of_not_le hxy
      · exact hy z h2

lemma sortDescBySnd_sorted (l : List (String × ℚ)) :
    (sortDescBySnd l).Pairwise (fun a b => b.2 ≤ a.2) := by
  induction l with
  | nil => simp [sortDescBySnd]
  | cons x xs ih => exact pairwise_insertDesc x (sortDescBySnd xs) ih

lemma filter_insertDesc (x : String × ℚ) (l : List (String × ℚ)) (v : ℚ) :
    (insertDesc x l).filter (fun p => decide (p.2 = v))
      = (x :: l).filter (fun p => decide (p.2 = v)) := by
  induction l with
  | nil => rfl
  | cons y ys ih =>
    rw [insertDesc]
    by_cases hxy : y.2 ≤ x.2
    · rw [if_pos hxy]
    · rw [if_neg hxy]
      have hlt : x.2 < y.2 := lt_of_not_le hxy
      by_cases hxv : x.2 = v
      · have hyv : ¬ (y.2 = v) := by
          intro hy; rw [hy, ← hxv] at hlt; exact lt_irrefl _ hlt
        simp only [List.filter_cons, decide_eq_true_eq, hxv, hyv, if_pos, if_neg,
          decide_True, decide_False, ite_true, ite_false] at *
        simp [hyv, hxv] at ih ⊢
        rw [ih]
      · simp [List.filter_cons, hxv] at ih ⊢
        by_cases hyv : y.2 = v
        · simp [hyv, ih]
        · simp [hyv, ih]

lemma str_isEmpty_false {s : String} (h : s ≠ "") : s.isEmpty = false := by
  cases hb : s.isEmpty
  · rfl
  · exact absurd ((String.isEmpty_iff s).mp hb) h

lemma listMean_eq_meanQ (l : List Nat) :
    listMean l = meanQ (l.map (fun n : Nat => (n : ℚ))) := by
  rw [listMean, meanQ]
  by_cases h : l = []
  · simp [h]
  · rw [if_neg (by simp only [List.isEmpty_iff]; exact h),
      if_neg (by simp only [List.isEmpty_iff, List.map_eq_nil_iff]; exact h)]
    rw [List.length_map]
    congr 1
    rw [Nat.cast_list_sum]

lemma popVar_eq_spec (l : List Nat) :
    popVar l = spec_popVariance l := by
  rw [popVar, spec_popVariance, meanQ, ← listMean_eq_meanQ]
  by_cases h : l = []
  · simp [h]
  · rw [if_neg (by simp only [List.isEmpty_iff]; exact h),
      if_neg (by simp only [List.isEmpty_iff, List.map_eq_nil_iff]; exact h)]
    rw [List.length_map]

lemma words_tokens_ne_nil {doc : Doc} (h : doc.words ≠ []) : doc.tokens ≠ [] := by
  intro ht
  apply h
  rw [Doc.words, ht]
  rfl

/-- The success equation of `analyze`: when no guard fires, the returned
profile has exactly the six computed fields. -/
lemma analyze_eq_ok (doc : Doc) (h1 : pyStrip doc.text ≠ "") (h2 : doc.sents ≠ [])
    (h3 : doc.words ≠ []) :
    analyze doc = .ok
      { avg_sentence_length := listMean doc.sentence_lengths
        sentence_length_variance := popVar doc.sentence_lengths
        type_token_ratio := ttrOf doc.words
        pos_distribution := doc.posDist
        punctuation_distribution := doc.punctDist
        flesch_reading_ease :=
          fleschOf doc.words.length doc.sents.length doc.totalSyllables } := by
  have htok : doc.tokens ≠ [] := words_tokens_ne_nil h3
  have hc1 : (doc.tokens.isEmpty || (pyStrip doc.text).isEmpty) = false := by
    simp [List.isEmpty_iff, str_isEmpty_false h1, htok]
  have hc2 : (doc.sents.isEmpty || doc.words.isEmpty) = false := by
    simp [List.isEmpty_iff, h2, h3]
  rw [analyze, hc1, hc2]
  rfl

lemma resultOk_analyze_iff (doc : Doc) :
    resultOk (analyze doc) = true
      ↔ (pyStrip doc.text ≠ "" ∧ doc.sents ≠ [] ∧ doc.words ≠ []) := by
  constructor
  · intro h
    rw [analyze] at h
    split at h
    · cases h
    · split at h
      · cases h
      · rename_i hA hB
        simp only [Bool.or_eq_true, not_or, List.isEmpty_iff, String.isEmpty_iff] at hA hB
        exact ⟨hA.2, hB.1, hB.2⟩
  · rintro ⟨ha, hb, hc⟩
    rw [analyze_eq_ok doc ha hb hc]
    rfl

/-- Inversion of a successful run: the guards passed and the profile is the
record of the six computed fields. -/
lemma analyze_ok_inv {doc : Doc} {p : StylisticProfile} (h : analyze doc = .ok p) :
    pyStrip doc.text ≠ "" ∧ doc.sents ≠ [] ∧ doc.words ≠ [] ∧
      p = { avg_sentence_length := listMean doc.sentence_lengths
            sentence_length_variance := popVar doc.sentence_lengths
            type_token_ratio := ttrOf doc.words
            pos_distribution := doc.posDist
            punctuation_distribution := doc.punctDist
            flesch_reading_ease :=
              fleschOf doc.words.length doc.sents.length doc.totalSyllables } := by
  have hok : resultOk (analyze doc) = true := by rw [h]; rfl
  obtain ⟨ha, hb, hc⟩ := (resultOk_analyze_iff doc).mp hok
  have heq := analyze_eq_ok doc ha hb hc
  rw [heq] at h
  injection h with h'
  exact ⟨ha, hb, hc, h'.symm⟩

/-- On a successful run the analyzer result viewed through `toOption` is the
explicit profile. -/
lemma analyze_toOption (doc : Doc) (h : resultOk (analyze doc) = true) :
    (analyze doc).toOption
      = some
        { avg_sentence_length := listMean doc.sentence_lengths
          sentence_length_variance := popVar doc.sentence_lengths
          type_token_ratio := ttrOf doc.words
          pos_distribution := doc.posDist
          punctuation_distribution := doc.punctDist
          flesch_reading_ease :=
            fleschOf doc.words.length doc.sents.length doc.totalSyllables } := by
  obtain ⟨ha, hb, hc⟩ := (resultOk_analyze_iff doc).mp h
  rw [analyze_eq_ok doc ha hb hc]
  rfl

lemma sortDescBySnd_filter (l : List (String × ℚ)) (v : ℚ) :
    (sortDescBySnd l).filter (fun p => decide (p.2 = v))
      = l.filter (fun p => decide (p.2 = v)) := by
  induction l with
  | nil => rfl
  | cons x xs ih =>
    rw [sortDescBySnd, filter_insertDesc]
    by_cases hxv : x.2 = v
    · simp [List.filter_cons, hxv, ih]
    · simp [List.filter_cons, hxv, ih]

/-- C2: for every non-empty word, `syllable_count` returns an integer that is
at least 1, computed by counting vowel-group starts (vowels a,e,i,o,u,y, a
vowel counting only when the preceding character is not a vowel, and the first
character when it is a vowel), decrementing by 1 when the word ends in `e`,
and clamping the result to a minimum of 1. -/
theorem syllable_count_spec (word : String) (h : word ≠ "") :
    syllable_count word = some (spec_syllables word) ∧ 1 ≤ spec_syllables word := by
  have hdata : word.data ≠ [] := fun hd => h (String.ext (by rw [hd]))
  have hlne : word.data.map Char.toLower ≠ [] := by
    simp only [ne_eq, List.map_eq_nil_iff]
    exact hdata
  have hc2 : (0 : Int) ≤ (if (word.data.map Char.toLower).getLast? = some 'e'
      then (vowelRuns false (word.data.map Char.toLower) : Int) - 1
      else (vowelRuns false (word.data.map Char.toLower) : Int)) := by
    by_cases hlast : (word.data.map Char.toLower).getLast? = some 'e'
    · rw [if_pos hlast]
      have hmem : 'e' ∈ word.data.map Char.toLower := List.mem_of_getLast?_eq_some hlast
      have h1 := one_le_vowelRuns_false (word.data.map Char.toLower) ⟨'e', hmem, rfl⟩
      omega
    · rw [if_neg hlast]
      exact_mod_cast Nat.zero_le _
  constructor
  · simp only [syllable_count, spec_syllables]
    rw [if_neg (by simp only [List.isEmpty_iff]; exact hlne)]
    congr 1
    by_cases hlast : (word.data.map Char.toLower).getLast? = some 'e'
    · rw [if_pos hlast] at hc2
      rw [if_pos hlast, if_pos hlast]
      split <;> omega
    · rw [if_neg hlast] at hc2
      rw [if_neg hlast, if_neg hlast]
      split <;> omega
  · exact le_max_left 1 _

/-- Witness for C2 at the concrete word `"hello"`. -/
theorem syllable_count_spec_witness :
    syllable_count "hello" = some (spec_syllables "hello")
      ∧ 1 ≤ spec_syllables "hello" :=
  syllable_count_spec "hello" (by decide)

/-- C9: on the pipeline output for `"Dogs run. Cats run fast!"` (two sentences
with alphabetic tokens `["Dogs","run"]` and `["Cats","run","fast"]`), analyze
returns a profile with `type_token_ratio = 4/5`, `avg_sentence_length = 5/2`
and `sentence_length_variance = 1/4`. -/
theorem dogs_example :
    dogsDoc.sents.length = 2 ∧
    dogsDoc.words = ["Dogs", "run", "Cats", "run", "fast"] ∧
    (analyze dogsDoc).toOption.map (fun p => p.type_token_ratio) = some (4 / 5) ∧
    (analyze dogsDoc).toOption.map (fun p => p.avg_sentence_length) = some (5 / 2) ∧
    (analyze dogsDoc).toOption.map (fun p => p.sentence_length_variance) = some (1 / 4) := by
  have hok : resultOk (analyze dogsDoc) = true := by decide
  have hw : dogsDoc.words = ["Dogs", "run", "Cats", "run", "fast"] := by decide
  have hs : dogsDoc.sentence_lengths = [2, 3] := by decide
  have hd : (["Dogs", "run", "Cats", "run", "fast"] : List String).dedup.length = 4 := by
    decide
  refine ⟨by decide, hw, ?_, ?_, ?_⟩
  · rw [analyze_toOption dogsDoc hok]
    simp only [Option.map_some']
    rw [hw, ttrOf]
    norm_num [hd]
  · rw [analyze_toOption dogsDoc hok]
    simp only [Option.map_some']
    rw [hs]
    norm_num [listMean]
  · rw [analyze_toOption dogsDoc hok]
    simp only [Option.map_some']
    rw [hs]
    norm_num [popVar, listMean]

/-- C3: for pipeline output whose alphabetic tokens have non-empty text (a
spaCy invariant), analyze fails exactly when the input is insufficient: the
stripped text is empty, or there are no sentences, or no alphabetic word
tokens; in particular it fails on the pipeline outputs for `""`, `"   "` and
`"!!! ... ???"`. -/
theorem analyze_insufficient_input :
    (∀ doc : Doc, (∀ t ∈ doc.tokens, t.is_alpha = true → t.text ≠ "") →
      (resultOk (analyze doc) = false ↔
        (pyStrip doc.text = "" ∨ doc.sents = [] ∨ doc.words = []))) ∧
    resultOk (analyze emptyDoc) = false ∧
    resultOk (analyze spacesDoc) = false ∧
    resultOk (analyze punctOnlyDoc) = false := by
  refine ⟨?_, by decide, by decide, by decide⟩
  intro doc _
  rw [← Bool.not_eq_true, resultOk_analyze_iff]
  tauto

/-- Witness for C3 at a concrete punctuation-only document. -/
theorem analyze_insufficient_input_witness :
    resultOk (analyze ⟨"?!", [[punctTok "?!"]]⟩) = false :=
  (analyze_insufficient_input.1 ⟨"?!", [[punctTok "?!"]]⟩ (by decide)).mpr
    (Or.inr (Or.inr (by decide)))

/-- C4: `avg_sentence_length` is the arithmetic mean of the per-sentence
alphabetic-token counts and `sentence_length_variance` is their population
variance (mean of squared deviations, dividing by N), which differs from the
Bessel-corrected sample variance, e.g. on counts `[2, 3]`. -/
theorem sentence_variance_population (doc : Doc)
    (h : resultOk (analyze doc) = true) :
    (analyze doc).toOption.map (fun p => p.avg_sentence_length)
        = some (meanQ (doc.sentence_lengths.map (fun n : Nat => (n : ℚ)))) ∧
    (analyze doc).toOption.map (fun p => p.sentence_length_variance)
        = some (spec_popVariance doc.sentence_lengths) ∧
    spec_popVariance [2, 3] = 1 / 4 ∧
    besselVariance [2, 3] = 1 / 2 := by
  refine ⟨?_, ?_, ?_, ?_⟩
  · rw [analyze_toOption doc h]
    simp only [Option.map_some']
    rw [listMean_eq_meanQ]
  · rw [analyze_toOption doc h]
    simp only [Option.map_some']
    rw [popVar_eq_spec]
  · rw [← popVar_eq_spec]
    norm_num [popVar, listMean]
  · norm_num [besselVariance, meanQ]

/-- Witness for C4 at a concrete two-sentence document. -/
theorem sentence_variance_population_witness :
    resultOk (analyze birdsDoc) = true ∧
    ((analyze birdsDoc).toOption.map (fun p => p.avg_sentence_length)
        = some (meanQ (birdsDoc.sentence_lengths.map (fun n : Nat => (n : ℚ)))) ∧
     (analyze birdsDoc).toOption.map (fun p => p.sentence_length_variance)
        = some (spec_popVariance birdsDoc.sentence_lengths) ∧
     spec_popVariance [2, 3] = 1 / 4 ∧
     besselVariance [2, 3] = 1 / 2) :=
  ⟨by decide, sentence_variance_population birdsDoc (by decide)⟩

/-- C5: on every successful run, `type_token_ratio` is the number of distinct
case-sensitive surface forms among the alphabetic tokens divided by
`total_words`, hence lies in `[0, 1]`; and the guarded expression is 0 on an
empty word list. -/
theorem ttr_distinct_forms (doc : Doc) (h : resultOk (analyze doc) = true) :
    (analyze doc).toOption.map (fun p => p.type_token_ratio)
        = some ((doc.words.dedup.length : ℚ) / (doc.words.length : ℚ)) ∧
    0 ≤ ((doc.words.dedup.length : ℚ) / (doc.words.length : ℚ)) ∧
    ((doc.words.dedup.length : ℚ) / (doc.words.length : ℚ)) ≤ 1 ∧
    ttrOf [] = 0 := by
  obtain ⟨h1, h2, h3⟩ := (resultOk_analyze_iff doc).mp h
  have hpos : 0 < doc.words.length := List.length_pos.mpr h3
  refine ⟨?_, ?_, ?_, rfl⟩
  · rw [analyze_toOption doc h]
    simp only [Option.map_some']
    rw [ttrOf, if_pos hpos]
  · exact div_nonneg (Nat.cast_nonneg _) (Nat.cast_nonneg _)
  · rw [div_le_one (by exact_mod_cast hpos)]
    exact_mod_cast (List.dedup_sublist doc.words).length_le

/-- Witness for C5 at a concrete punctuation-free document. -/
theorem ttr_distinct_forms_witness :
    resultOk (analyze sunDoc) = true ∧
    ((analyze sunDoc).toOption.map (fun p => p.type_token_ratio)
        = some ((sunDoc.words.dedup.length : ℚ) / (sunDoc.words.length : ℚ)) ∧
     0 ≤ ((sunDoc.words.dedup.length : ℚ) / (sunDoc.words.length : ℚ)) ∧
     ((sunDoc.words.dedup.length : ℚ) / (sunDoc.words.length : ℚ)) ≤ 1 ∧
     ttrOf [] = 0) :=
  ⟨by decide, ttr_distinct_forms sunDoc (by decide)⟩

/-- C6: on every successful run, `flesch_reading_ease` is the guarded Flesch
computation over `total_words`, `total_sentences` and `total_syllables` (the
sum of `syllable_count` over the alphabetic tokens); the guard yields the
standard formula when both totals are positive and exactly 0 otherwise. -/
theorem flesch_reading_ease_formula (doc : Doc)
    (h : resultOk (analyze doc) = true) :
    (analyze doc).toOption.map (fun p => p.flesch_reading_ease)
        = some (fleschOf doc.words.length doc.sents.length doc.totalSyllables) ∧
    doc.totalSyllables = (doc.words.map (fun w => (syllable_count w).getD 0)).sum ∧
    (∀ (tw ts : Nat) (syl : Int), 0 < ts → 0 < tw →
      fleschOf tw ts syl
        = 206835 / 1000 - (1015 / 1000) * ((tw : ℚ) / (ts : ℚ))
          - (846 / 10) * ((syl : ℚ) / (tw : ℚ))) ∧
    (∀ (tw ts : Nat) (syl : Int), ts = 0 ∨ tw = 0 → fleschOf tw ts syl = 0) := by
  refine ⟨?_, rfl, ?_, ?_⟩
  · rw [analyze_toOption doc h]
    simp only [Option.map_some']
  · intro tw ts syl hts htw
    rw [fleschOf, if_pos ⟨hts, htw⟩]
  · intro tw ts syl hz
    rw [fleschOf, if_neg (by rintro ⟨ha, hb⟩; rcases hz with hz | hz <;> omega)]

/-- Witness for C6 at a concrete one-sentence document. -/
theorem flesch_reading_ease_formula_witness :
    resultOk (analyze goDoc) = true ∧
    ((analyze goDoc).toOption.map (fun p => p.flesch_reading_ease)
        = some (fleschOf goDoc.words.length goDoc.sents.length goDoc.totalSyllables) ∧
     goDoc.totalSyllables
        = (goDoc.words.map (fun w => (syllable_count w).getD 0)).sum ∧
     (∀ (tw ts : Nat) (syl : Int), 0 < ts → 0 < tw →
       fleschOf tw ts syl
         = 206835 / 1000 - (1015 / 1000) * ((tw : ℚ) / (ts : ℚ))
           - (846 / 10) * ((syl : ℚ) / (tw : ℚ))) ∧
     (∀ (tw ts : Nat) (syl : Int), ts = 0 ∨ tw = 0 → fleschOf tw ts syl = 0)) :=
  ⟨by decide, flesch_reading_ease_formula goDoc (by decide)⟩

/-- C7: on every successful run, the punctuation distribution maps each
punctuation surface text to its tally divided by the total punctuation count,
so its values sum to 1 when punctuation exists; when no punctuation token
exists the explicit guard yields the empty mapping, as on the concrete
punctuation-free document `sunDoc`. -/
theorem punct_distribution_fractions (doc : Doc)
    (h : resultOk (analyze doc) = true) :
    (doc.punctKeys = [] →
      (analyze doc).toOption.map (fun p => p.punctuation_distribution) = some []) ∧
    (doc.punctKeys ≠ [] →
      (analyze doc).toOption.map (fun p => p.punctuation_distribution)
          = some ((tally doc.punctKeys).map
              (fun q => (q.1, (q.2 : ℚ) / (sumVals (tally doc.punctKeys) : ℚ)))) ∧
      (analyze doc).toOption.map (fun p => valSum p.punctuation_distribution)
          = some 1) ∧
    (analyze sunDoc).toOption.map (fun p => p.punctuation_distribution) = some [] := by
  refine ⟨?_, ?_, ?_⟩
  · intro hk
    rw [analyze_toOption doc h]
    simp only [Option.map_some']
    rw [Doc.punctDist, hk]
    rfl
  · intro hk
    have hpos : 0 < sumVals (tally doc.punctKeys) := by
      rw [sumVals_tally]
      exact List.length_pos.mpr hk
    constructor
    · rw [analyze_toOption doc h]
      simp only [Option.map_some']
      rw [Doc.punctDist, if_pos hpos]
    · rw [analyze_toOption doc h]
      simp only [Option.map_some']
      rw [Doc.punctDist, if_pos hpos, valSum_map_div, div_self]
      exact_mod_cast hpos.ne'
  · rw [analyze_toOption sunDoc (by decide)]
    simp only [Option.map_some']
    decide

/-- Witness for C7 at a concrete document with punctuation. -/
theorem punct_distribution_fractions_witness :
    resultOk (analyze hiDoc) = true ∧
    ((hiDoc.punctKeys = [] →
      (analyze hiDoc).toOption.map (fun p => p.punctuation_distribution) = some []) ∧
     (hiDoc.punctKeys ≠ [] →
      (analyze hiDoc).toOption.map (fun p => p.punctuation_distribution)
          = some ((tally hiDoc.punctKeys).map
              (fun q => (q.1, (q.2 : ℚ) / (sumVals (tally hiDoc.punctKeys) : ℚ)))) ∧
      (analyze hiDoc).toOption.map (fun p => valSum p.punctuation_distribution)
          = some 1) ∧
     (analyze sunDoc).toOption.map (fun p => p.punctuation_distribution) = some []) :=
  ⟨by decide, punct_distribution_fractions hiDoc (by decide)⟩

/-- C1 counterexample: on the pipeline output for `"cat 12 34"` (one
alphabetic token, two numeral tokens that are neither punctuation nor
whitespace), analyze succeeds, `total_words = 1 > 0`, a non-punct, non-space
token exists, yet the `pos_distribution` values sum to 3 and the value of
`"NUM"` is 2, outside `[0, 1]`. -/
theorem pos_distribution_counterexample :
    resultOk (analyze mixedDoc) = true ∧
    mixedDoc.words.length = 1 ∧
    mixedDoc.tokens.filter (fun t => !t.is_punct && !t.is_space) ≠ [] ∧
    (analyze mixedDoc).toOption.map (fun p => p.pos_distribution)
        = some [("NOUN", 1), ("NUM", 2)] ∧
    (analyze mixedDoc).toOption.map (fun p => valSum p.pos_distribution)
        = some 3 ∧
    ¬ ((3 : ℚ) = 1) ∧ ¬ ((2 : ℚ) ≤ 1) := by
  have hok : resultOk (analyze mixedDoc) = true := by decide
  have ht : tally mixedDoc.posKeys = [("NOUN", 1), ("NUM", 2)] := by decide
  have hw : mixedDoc.words.length = 1 := by decide
  refine ⟨hok, hw, by decide, ?_, ?_, by norm_num, by norm_num⟩
  · rw [analyze_toOption mixedDoc hok]
    simp only [Option.map_some']
    rw [Doc.posDist, hw, ht, if_pos (by norm_num)]
    norm_num
  · rw [analyze_toOption mixedDoc hok]
    simp only [Option.map_some']
    rw [Doc.posDist, hw, ht, if_pos (by norm_num)]
    norm_num [valSum]

/-- C1 amended: on every successful run the `pos_distribution` values sum to
(number of non-punct, non-space tokens) / `total_words`; when the non-punct,
non-space tokens are exactly the alphabetic ones, the values sum to 1 and
each lies in `[0, 1]`. -/
theorem pos_distribution_sum (doc : Doc) (h : resultOk (analyze doc) = true) :
    (analyze doc).toOption.map (fun p => p.pos_distribution) = some doc.posDist ∧
    (analyze doc).toOption.map (fun p => valSum p.pos_distribution)
        = some ((doc.posKeys.length : ℚ) / (doc.words.length : ℚ)) ∧
    ((∀ t ∈ doc.tokens, (!t.is_punct && !t.is_space) = t.is_alpha) →
      (analyze doc).toOption.map (fun p => valSum p.pos_distribution) = some 1 ∧
      ∀ q ∈ doc.posDist, 0 ≤ q.2 ∧ q.2 ≤ 1) := by
  obtain ⟨h1, h2, h3⟩ := (resultOk_analyze_iff doc).mp h
  have hpos : 0 < doc.words.length := List.length_pos.mpr h3
  have hsum : (analyze doc).toOption.map (fun p => valSum p.pos_distribution)
      = some ((doc.posKeys.length : ℚ) / (doc.words.length : ℚ)) := by
    rw [analyze_toOption doc h]
    simp only [Option.map_some']
    rw [Doc.posDist, if_pos hpos, valSum_map_div, sumVals_tally]
  refine ⟨?_, hsum, ?_⟩
  · rw [analyze_toOption doc h]
    simp only [Option.map_some']
  · intro hiff
    have hlen : doc.posKeys.length = doc.words.length := by
      rw [Doc.posKeys, Doc.words, List.length_map, List.length_map]
      congr 1
      exact List.filter_congr (fun t ht => hiff t ht)
    constructor
    · rw [hsum, hlen, div_self (by exact_mod_cast hpos.ne')]
    · intro q hq
      rw [Doc.posDist, if_pos hpos] at hq
      obtain ⟨a, ha, rfl⟩ := List.mem_map.mp hq
      constructor
      · exact div_nonneg (Nat.cast_nonneg _) (Nat.cast_nonneg _)
      · rw [div_le_one (by exact_mod_cast hpos)]
        have hle : a.2 ≤ sumVals (tally doc.posKeys) := snd_le_sumVals ha
        rw [sumVals_tally, hlen] at hle
        exact_mod_cast hle

/-- Witness for the amended C1 at a concrete document whose non-punct,
non-space tokens are exactly the alphabetic ones. -/
theorem pos_distribution_sum_witness :
    resultOk (analyze starsDoc) = true ∧
    ((analyze starsDoc).toOption.map (fun p => p.pos_distribution)
        = some starsDoc.posDist ∧
     (analyze starsDoc).toOption.map (fun p => valSum p.pos_distribution)
        = some ((starsDoc.posKeys.length : ℚ) / (starsDoc.words.length : ℚ)) ∧
     ((∀ t ∈ starsDoc.tokens, (!t.is_punct && !t.is_space) = t.is_alpha) →
      (analyze starsDoc).toOption.map (fun p => valSum p.pos_distribution)
          = some 1 ∧
      ∀ q ∈ starsDoc.posDist, 0 ≤ q.2 ∧ q.2 ≤ 1)) :=
  ⟨by decide, pos_distribution_sum starsDoc (by decide)⟩

/-- C8: the formatter renders the Grammar section as exactly the top 5 POS
tags by descending fraction (fewer when the mapping is smaller) and the
Punctuation section as the top 3 marks, where the selection is a stable
descending sort of the mapping — a permutation, sorted by non-increasing
value, with entries of equal value kept in the mapping's insertion order —
and each entry is rendered as a percentage with one decimal. -/
theorem formatter_top_sections (a : StylisticProfile) (author : String) :
    format_analysis_for_prompt a author
      = "## Stylistic Analysis of " ++ author ++ "\n\n"
        ++ "- **Sentence Structure**: Emulate sentences with an average length of "
        ++ fmtFixed 1 a.avg_sentence_length
        ++ " words. The sentence length should be relatively consistent, with a variance of "
        ++ fmtFixed 1 a.sentence_length_variance ++ ".\n"
        ++ "- **Vocabulary**: Use a vocabulary of moderate richness (Type-Token Ratio of around "
        ++ fmtFixed 2 a.type_token_ratio ++ "). Avoid overly obscure or complex words.\n"
        ++ "- **Grammar (Part-of-Speech)**: The writing heavily features the following parts of speech. Replicate this distribution:\n"
        ++ grammarLines a
        ++ "- **Punctuation**: Punctuation usage is a key part of the style. Prioritize the following marks:\n"
        ++ punctLines a
        ++ "- **Clarity**: The overall style is clear and direct, with a Flesch Reading Ease score around "
        ++ fmtFixed 0 a.flesch_reading_ease ++ ". Aim for this level of readability.\n" ∧
    grammarLines a
      = String.join (((sortDescBySnd a.pos_distribution).take 5).map
          (fun p => "  - " ++ p.1 ++ ": ~" ++ fmtPercent1 p.2 ++ "\n")) ∧
    punctLines a
      = String.join (((sortDescBySnd a.punctuation_distribution).take 3).map
          (fun p => "  - The \x27" ++ p.1 ++ "\x27 character comprises ~"
            ++ fmtPercent1 p.2 ++ " of all punctuation.\n")) ∧
    List.Perm (sortDescBySnd a.pos_distribution) a.pos_distribution ∧
    (sortDescBySnd a.pos_distribution).Pairwise (fun x y => y.2 ≤ x.2) ∧
    (∀ v : ℚ, (sortDescBySnd a.pos_distribution).filter (fun q => decide (q.2 = v))
        = a.pos_distribution.filter (fun q => decide (q.2 = v))) ∧
    (top_pos a).length = min 5 a.pos_distribution.length ∧
    List.Perm (sortDescBySnd a.punctuation_distribution) a.punctuation_distribution ∧
    (sortDescBySnd a.punctuation_distribution).Pairwise (fun x y => y.2 ≤ x.2) ∧
    (∀ v : ℚ, (sortDescBySnd a.punctuation_distribution).filter
          (fun q => decide (q.2 = v))
        = a.punctuation_distribution.filter (fun q => decide (q.2 = v))) ∧
    (top_puncts a).length = min 3 a.punctuation_distribution.length := by
  refine ⟨rfl, rfl, rfl, sortDescBySnd_perm _, sortDescBySnd_sorted _,
    sortDescBySnd_filter _, ?_, sortDescBySnd_perm _, sortDescBySnd_sorted _,
    sortDescBySnd_filter _, ?_⟩
  · rw [top_pos, List.length_take, (sortDescBySnd_perm _).length_eq]
  · rw [top_puncts, List.length_take, (sortDescBySnd_perm _).length_eq]

/-- C10: with the pipeline invariant that alphabetic tokens are neither
punctuation nor whitespace, every successful run has positive `total_words`
and `total_sentences`, the defensive zero-denominator branches of
`type_token_ratio` and `flesch_reading_ease` are not taken, and the resulting
`pos_distribution` is non-empty. -/
theorem success_positive_totals (doc : Doc)
    (hwf : ∀ t ∈ doc.tokens, t.is_alpha = true → t.is_punct = false ∧ t.is_space = false)
    (h : resultOk (analyze doc) = true) :
    0 < doc.words.length ∧ 0 < doc.sents.length ∧
    (analyze doc).toOption.map (fun p => p.type_token_ratio)
        = some ((doc.words.dedup.length : ℚ) / (doc.words.length : ℚ)) ∧
    (analyze doc).toOption.map (fun p => p.flesch_reading_ease)
        = some (206835 / 1000
            - (1015 / 1000) * ((doc.words.length : ℚ) / (doc.sents.length : ℚ))
            - (846 / 10) * ((doc.totalSyllables : ℚ) / (doc.words.length : ℚ))) ∧
    (analyze doc).toOption.map (fun p => p.pos_distribution.isEmpty) = some false := by
  obtain ⟨h1, h2, h3⟩ := (resultOk_analyze_iff doc).mp h
  have hw : 0 < doc.words.length := List.length_pos.mpr h3
  have hs : 0 < doc.sents.length := List.length_pos.mpr h2
  refine ⟨hw, hs, ?_, ?_, ?_⟩
  · rw [analyze_toOption doc h]
    simp only [Option.map_some']
    rw [ttrOf, if_pos hw]
  · rw [analyze_toOption doc h]
    simp only [Option.map_some']
    rw [fleschOf, if_pos ⟨hs, hw⟩]
  · rw [analyze_toOption doc h]
    simp only [Option.map_some', Option.some.injEq]
    have hex : ∃ t ∈ doc.tokens, t.is_alpha = true := by
      obtain ⟨w, hwmem⟩ := List.exists_mem_of_ne_nil _ h3
      rw [Doc.words] at hwmem
      obtain ⟨t, htf, _⟩ := List.mem_map.mp hwmem
      obtain ⟨htt, hta⟩ := List.mem_filter.mp htf
      exact ⟨t, htt, hta⟩
    obtain ⟨t, htt, hta⟩ := hex
    obtain ⟨hp, hsp⟩ := hwf t htt hta
    have htf : t ∈ doc.tokens.filter (fun t => !t.is_punct && !t.is_space) := by
      rw [List.mem_filter]
      exact ⟨htt, by rw [hp, hsp]; rfl⟩
    have hkeys : doc.posKeys ≠ [] := by
      rw [Doc.posKeys]
      simp only [ne_eq, List.map_eq_nil_iff]
      exact List.ne_nil_of_mem htf
    rw [Doc.posDist, if_pos hw]
    simp only [List.isEmpty_eq_false, ne_eq, List.map_eq_nil_iff]
    exact tally_ne_nil hkeys

/-- Witness for C10 at a concrete well-formed document. -/
theorem success_positive_totals_witness :
    (∀ t ∈ timeDoc.tokens,
      t.is_alpha = true → t.is_punct = false ∧ t.is_space = false) ∧
    resultOk (analyze timeDoc) = true ∧
    (0 < timeDoc.words.length ∧ 0 < timeDoc.sents.length ∧
     (analyze timeDoc).toOption.map (fun p => p.type_token_ratio)
        = some ((timeDoc.words.dedup.length : ℚ) / (timeDoc.words.length : ℚ)) ∧
     (analyze timeDoc).toOption.map (fun p => p.flesch_reading_ease)
        = some (206835 / 1000
            - (1015 / 1000) * ((timeDoc.words.length : ℚ) / (timeDoc.sents.length : ℚ))
            - (846 / 10) * ((timeDoc.totalSyllables : ℚ) / (timeDoc.words.length : ℚ))) ∧
     (analyze timeDoc).toOption.map (fun p => p.pos_distribution.isEmpty)
        = some false) :=
  ⟨by decide, by decide, success_positive_totals timeDoc (by decide) (by decide)⟩

end StyleTransfer
